import Mathlib

/-!
Shallow embedding of the grout IPv6 neighbor-resolution subsystem:
- `src/modules/ip6/control/nexthop.c` (control callbacks, NH_ADD/NH_DEL),
- `src/modules/ip6/datapath/ndp_ns_input.c` (NS validation and NA reply),
- `src/modules/ip6/datapath/ndp_ns_output.c` (solicit emission).

IPv6 addresses are modelled as natural numbers below `2^128`, link-layer
addresses as natural numbers below `2^48`, packets as opaque identifiers
(`Nat`).  Collaborator calls (route lookup, pool allocation, packet copy,
`post_to_stack`, current TSC cycles) are supplied through explicit
environment records; the functions below mirror the control flow of the C
functions over those environments.
-/

namespace Grout

/-- Embedding of `rte_ipv6_addr_is_unspec`: the all-zero address. -/
def ipv6_is_unspec (a : Nat) : Bool := a = 0

/-- Embedding of `rte_ipv6_addr_is_mcast`: first byte is `0xff`. -/
def ipv6_is_mcast (a : Nat) : Bool := a / 2 ^ 120 = 0xff

/-- Solicited-node multicast prefix test: upper 104 bits are `ff02::1:ff00:0/104`. -/
def ipv6_is_solnode_mcast (a : Nat) : Bool := a / 2 ^ 24 = 0xff0200000000000000000001ff

/-- Embedding of `rte_ipv6_solnode_from_addr`: `ff02::1:ff00:0 | (a mod 2^24)`. -/
def ipv6_solnode (a : Nat) : Nat := 0xff0200000000000000000001ff000000 + a % 2 ^ 24

/-- The constant `RTE_IPV6_ADDR_ALLNODES_LINK_LOCAL`: `ff02::1`. -/
def ipv6_allnodes : Nat := 0xff020000000000000000000000000001

/-- The constant `ICMP6_TYPE_NEIGH_SOLICIT` (RFC 4861). -/
def ICMP6_TYPE_NEIGH_SOLICIT : Nat := 135

/-- The constant `ICMP6_TYPE_NEIGH_ADVERT` (RFC 4861). -/
def ICMP6_TYPE_NEIGH_ADVERT : Nat := 136

/-- The constant `RTE_IPV6_MAX_DEPTH`: prefix length of a host route. -/
def RTE_IPV6_MAX_DEPTH : Nat := 128

/-- The constant `GR_IFACE_ID_UNDEF`: the "not yet bound / any interface" id. -/
def GR_IFACE_ID_UNDEF : Nat := 0

/-- Numeric `errno` constants used by the API handlers. -/
def ENOENT : Nat := 2
def EBUSY : Nat := 16
def EEXIST : Nat := 17
def EINVAL : Nat := 22
def ENOSPC : Nat := 28
def EOVERFLOW : Nat := 75
def ENODEV : Nat := 19

/-- The `GR_NH_F_*` flag bits of a nexthop, one boolean per bit. -/
structure NhFlags where
  static_ : Bool
  local_ : Bool
  link : Bool
  gateway : Bool
  reachable : Bool
  stale : Bool
  pending : Bool
  failed : Bool
  deriving Repr, DecidableEq

/-- All flag bits clear. -/
def noFlags : NhFlags :=
  ⟨false, false, false, false, false, false, false, false⟩

/-- Embedding of `struct nexthop`: the fields read and written by the embedded functions.
The held-packet chain (`held_pkts_head`/`tail` threaded through mbufs) is
modelled as a FIFO list (head of the list = head of the chain), next to the
separate `held_pkts_num` counter kept by the C code. -/
structure Nexthop where
  vrf_id : Nat
  iface_id : Nat
  ipv6 : Nat
  lladdr : Nat
  flags : NhFlags
  ref_count : Nat
  ucast_probes : Nat
  bcast_probes : Nat
  last_request : Nat
  last_reply : Nat
  held_pkts : List Nat
  held_pkts_num : Nat
  deriving Repr, DecidableEq

/-- Modelled from the spec: `nexthop_new` (the nexthop pool allocator is not
part of the provided sources).  A fresh entry is bound to `(vrf, iface, addr)`
with all flags clear, no link-layer address, an empty hold queue and a single
reference held by its creator. -/
def mkNexthop (vrf iface addr : Nat) : Nexthop where
  vrf_id := vrf
  iface_id := iface
  ipv6 := addr
  lladdr := 0
  flags := noFlags
  ref_count := 1
  ucast_probes := 0
  bcast_probes := 0
  last_request := 0
  last_reply := 0
  held_pkts := []
  held_pkts_num := 0

/-- A route insertion performed by the control callbacks
(`ip6_route_insert(vrf, iface, dst, depth, nh)`). -/
structure RouteInsert where
  vrf : Nat
  iface : Nat
  dst : Nat
  depth : Nat
  nh : Nexthop
  deriving Repr, DecidableEq

/-! ### `ndp_probe_input_cb` (src/modules/ip6/control/nexthop.c:118-201) -/

/-- A probe message posted to the control loop, as `ndp_probe_input_cb`
reads it: the ICMPv6 type, the `target` field of the NS/NA payload (for an
NS the datapath has already replaced it with the sender's source address),
the result of `icmp6_get_opt` for each option kind the callback may request,
and the receiving interface's ids. -/
structure ProbeMsg where
  icmpType : Nat
  target : Nat
  srcLladdrOpt : Option Nat
  tgtLladdrOpt : Option Nat
  ifaceVrf : Nat
  ifaceId : Nat
  deriving Repr, DecidableEq

/-- Collaborator results consumed by `ndp_probe_input_cb`:
`lookup` is the result of `ip6_nexthop_lookup(iface->vrf_id, iface->id, target)`,
`newOk` whether `ip6_nexthop_new` succeeds, `routeInsertOk` whether
`ip6_route_insert` succeeds, `now` the value of `rte_get_tsc_cycles()`. -/
structure ProbeEnv where
  lookup : Option Nexthop
  newOk : Bool
  routeInsertOk : Bool
  now : Nat
  deriving Repr, DecidableEq

/-- Observable outcome of `ndp_probe_input_cb`: the final state of the
nexthop it touched or created (`none` when the callback bailed out before
reaching one), whether a nexthop was created, the internal host route it
inserted, and the packets flushed to `ip6_output` in order, each with the
nexthop attached to its metadata. -/
structure ProbeOutcome where
  nhAfter : Option Nexthop
  created : Bool
  routeInserted : Option RouteInsert
  posted : List (Nat × Nexthop)
  deriving Repr, DecidableEq

/-- The "Refresh all fields" + "Flush all held packets" tail of
`ndp_probe_input_cb` (nexthop.c:170-198), applied to the looked-up or newly
created nexthop `nh`.  Static nexthops are left untouched. -/
def probeRefresh (msg : ProbeMsg) (env : ProbeEnv) (mac : Nat) (nh : Nexthop)
    (created : Bool) (route : Option RouteInsert) : ProbeOutcome :=
  if nh.flags.static_ then
    ⟨some nh, created, route, []⟩
  else
    let nh' : Nexthop :=
      { nh with
        last_reply := env.now
        iface_id := msg.ifaceId
        flags := { nh.flags with
          reachable := true, stale := false, pending := false, failed := false }
        ucast_probes := 0
        bcast_probes := 0
        lladdr := mac
        held_pkts := []
        held_pkts_num := 0 }
    ⟨some nh', created, route, nh.held_pkts.map (fun p => (p, nh'))⟩

/-- The link-layer address extracted by the `switch (icmp6->type)` of
`ndp_probe_input_cb` (nexthop.c:128-149): the source-lladdr option for a
neighbor solicitation, the target-lladdr option for a neighbor
advertisement, nothing for any other type. -/
def probeLladdr (msg : ProbeMsg) : Option Nat :=
  if msg.icmpType = ICMP6_TYPE_NEIGH_SOLICIT then msg.srcLladdrOpt
  else if msg.icmpType = ICMP6_TYPE_NEIGH_ADVERT then msg.tgtLladdrOpt
  else none

/-- The nexthop `ndp_probe_input_cb` operates on: the looked-up entry, or
the freshly created one when the lookup misses and allocation succeeds. -/
def probeTargetNh (msg : ProbeMsg) (env : ProbeEnv) : Option Nexthop :=
  match env.lookup with
  | some nh => some nh
  | none =>
    if env.newOk then some (mkNexthop msg.ifaceVrf msg.ifaceId msg.target)
    else none

/-- Embedding of `ndp_probe_input_cb` (nexthop.c:118-201).  For a neighbor solicitation
the link-layer address comes from the source-lladdr option, for a neighbor
advertisement from the target-lladdr option; any other type, a missing
option, a failed allocation or a failed route insertion frees the message
without touching any nexthop state. -/
def ndp_probe_input_cb (msg : ProbeMsg) (env : ProbeEnv) : ProbeOutcome :=
  match probeLladdr msg with
  | none => ⟨none, false, none, []⟩
  | some mac =>
    match env.lookup with
    | some nh => probeRefresh msg env mac nh false none
    | none =>
      if env.newOk then
        let fresh := mkNexthop msg.ifaceVrf msg.ifaceId msg.target
        if env.routeInsertOk then
          probeRefresh msg env mac fresh true
            (some ⟨msg.ifaceVrf, msg.ifaceId, msg.target, RTE_IPV6_MAX_DEPTH, fresh⟩)
        else
          ⟨some fresh, true, none, []⟩
      else
        ⟨none, false, none, []⟩

/-! ### `ip6_nexthop_unreachable_cb` (src/modules/ip6/control/nexthop.c:43-116) -/

/-- What `ip6_nexthop_unreachable_cb` reads from the posted mbuf: the IPv6
destination and the receiving interface's ids. -/
structure UnreachMsg where
  dst : Nat
  ifaceVrf : Nat
  ifaceId : Nat
  pkt : Nat
  deriving Repr, DecidableEq

/-- Collaborator results consumed by `ip6_nexthop_unreachable_cb`:
`routeLookup` is `ip6_route_lookup(iface->vrf_id, iface->id, dst)`,
`nhLookup` is `ip6_nexthop_lookup(nh->vrf_id, iface->id, dst)` on the pivot
path, `newOk`/`routeInsertOk`/`postOk` whether allocation, route insertion
and `post_to_stack` succeed, and `maxHeld` the `NH_MAX_HELD_PKTS` constant
(its numeric value is configuration outside the provided sources). -/
structure UnreachEnv where
  routeLookup : Option Nexthop
  nhLookup : Option Nexthop
  newOk : Bool
  routeInsertOk : Bool
  postOk : Bool
  maxHeld : Nat
  deriving Repr, DecidableEq

/-- Outcome of the LINK-route pivot (nexthop.c:48-84): the packet is freed
(`drop`), the process aborts on the interface-mismatch invariant, or
processing continues with the selected nexthop, together with whether that
nexthop was freshly created, whether an uninitialized gateway entry
inherited the link route's interface, and the host route inserted. -/
inductive PivotOut where
  | drop
  | abort
  | cont (nh : Nexthop) (created : Bool) (inheritedIface : Bool)
      (route : Option RouteInsert)
  deriving Repr, DecidableEq

/-- The route re-lookup and LINK-route pivot of `ip6_nexthop_unreachable_cb`
(nexthop.c:48-84). -/
def unreachPivot (msg : UnreachMsg) (env : UnreachEnv) : PivotOut :=
  match env.routeLookup with
  | none => .drop
  | some nh =>
    if nh.flags.link ∧ msg.dst ≠ nh.ipv6 then
      let remoteAndInfo : Option Nexthop × Bool × Bool :=
        match env.nhLookup with
        | none =>
          (if env.newOk then some (mkNexthop nh.vrf_id nh.iface_id msg.dst) else none,
           env.newOk, false)
        | some r =>
          if r.flags.gateway ∧ r.iface_id = GR_IFACE_ID_UNDEF then
            (some { r with iface_id := nh.iface_id }, false, true)
          else
            (some r, false, false)
      match remoteAndInfo with
      | (none, _, _) => .drop
      | (some remote, created, inherited) =>
        if remote.iface_id ≠ nh.iface_id then .abort
        else if env.routeInsertOk then
          .cont remote created inherited
            (some ⟨nh.vrf_id, nh.iface_id, msg.dst, RTE_IPV6_MAX_DEPTH, remote⟩)
        else .drop
    else
      .cont nh false false none

/-- Outcome of the delivery tail of `ip6_nexthop_unreachable_cb`:
`reinjected` posts the packet back to `ip6_output` with `nh` attached;
`held nh' solicited` enqueued the packet on the hold queue leaving the
nexthop in state `nh'`, emitting a solicit iff `solicited`; `freed` frees
the packet leaving the nexthop untouched. -/
inductive UnreachResult where
  | abort
  | freed
  | reinjected (nh : Nexthop)
  | held (nh : Nexthop) (solicited : Bool)
  deriving Repr, DecidableEq

/-- The reachability check and hold-queue enqueue of
`ip6_nexthop_unreachable_cb` (nexthop.c:86-115), applied to the possibly
pivoted nexthop. -/
def unreachDeliver (nh : Nexthop) (pkt : Nat) (env : UnreachEnv) : UnreachResult :=
  if nh.flags.reachable then
    if env.postOk then .reinjected nh else .freed
  else if nh.held_pkts_num < env.maxHeld then
    let nh' : Nexthop :=
      { nh with
        held_pkts := nh.held_pkts ++ [pkt]
        held_pkts_num := nh.held_pkts_num + 1 }
    if ¬ nh.flags.pending then
      .held { nh' with flags := { nh'.flags with pending := true } } true
    else
      .held nh' false
  else
    .freed

/-- Embedding of `ip6_nexthop_unreachable_cb` (nexthop.c:43-116): pivot then deliver. -/
def ip6_nexthop_unreachable_cb (msg : UnreachMsg) (env : UnreachEnv) :
    UnreachResult :=
  match unreachPivot msg env with
  | .drop => .freed
  | .abort => .abort
  | .cont nh _ _ _ => unreachDeliver nh msg.pkt env

/-! ### `ndp_ns_input_process` (src/modules/ip6/datapath/ndp_ns_input.c:27-186),
single-packet body -/

/-- What `ndp_ns_input_process` reads from one mbuf: the `ip6_local_mbuf_data`
fields, the ICMPv6 code, the NS target, the result of `icmp6_get_opt` for
the source link-layer address option, and the receiving interface ids. -/
structure NsInputMsg where
  hopLimit : Nat
  icmpCode : Nat
  len : Nat
  src : Nat
  dst : Nat
  target : Nat
  srcLladdrOpt : Option Nat
  ifaceVrf : Nat
  ifaceId : Nat
  deriving Repr, DecidableEq

/-- Collaborator results consumed by `ndp_ns_input_process`:
`localLookup` is `ip6_nexthop_lookup(iface->vrf_id, iface->id, &ns->target)`,
`remoteLookup` is `ip6_nexthop_lookup(iface->vrf_id, iface->id, &src)`,
`copyOk` whether `rte_pktmbuf_copy` succeeds. -/
structure NsInputEnv where
  localLookup : Option Nexthop
  remoteLookup : Option Nexthop
  copyOk : Bool
  deriving Repr, DecidableEq

/-- The neighbor advertisement forged in the reused mbuf: the NA flags and
target, the advertised link-layer address, the IPv6 source/destination
written by `ip6_set_fields`, and the nexthop attached for `ip6_output`. -/
structure NaReply where
  solicited : Bool
  router : Bool
  override_ : Bool
  target : Nat
  llMac : Nat
  ipSrc : Nat
  ipDst : Nat
  nhAttached : Nexthop
  deriving Repr, DecidableEq

/-- Per-packet result of `ndp_ns_input_process`: the drop edge taken, or the
reply emitted on `ip_output` together with the target address carried by the
copy posted to `control_output` (`none` when no copy is posted). -/
inductive NsResult where
  | inval
  | ignore
  | error
  | output (reply : NaReply) (controlCopyTarget : Option Nat)
  deriving Repr, DecidableEq

/-- The body of the per-packet loop of `ndp_ns_input_process`
(ndp_ns_input.c:58-183).  The `d->len >= 0` check of the source is trivially
true for a natural number and is kept as such. -/
def ndp_ns_input_process (msg : NsInputMsg) (env : NsInputEnv) : NsResult :=
  if msg.hopLimit ≠ 255 then .inval
  else if msg.icmpCode ≠ 0 then .inval
  else if ¬ (msg.len ≥ 0) then .inval
  else if ipv6_is_mcast msg.target then .inval
  else
    match env.localLookup with
    | none => .ignore
    | some localNh =>
      if ¬ localNh.flags.local_ then .ignore
      else if ipv6_is_unspec msg.src then
        if ¬ ipv6_is_mcast msg.dst then .inval
        else if msg.srcLladdrOpt.isSome then .inval
        else
          .output
            ⟨false, true, true, localNh.ipv6, localNh.lladdr,
              localNh.ipv6, ipv6_allnodes, localNh⟩
            none
      else if msg.srcLladdrOpt.isSome then
        if env.copyOk then
          .output
            ⟨true, true, true, localNh.ipv6, localNh.lladdr,
              localNh.ipv6, msg.src, (env.remoteLookup.getD localNh)⟩
            (some msg.src)
        else .error
      else
        .output
          ⟨true, true, true, localNh.ipv6, localNh.lladdr,
            localNh.ipv6, msg.src, (env.remoteLookup.getD localNh)⟩
          none

/-! ### `ndp_ns_output_process` (src/modules/ip6/datapath/ndp_ns_output.c:39-110),
single-packet body -/

/-- Collaborator inputs of `ndp_ns_output_process` for one mbuf:
`nhIn` is `control_input_mbuf_data(mbuf)->data`, `localPref` the result of
`ip6_addr_get_preferred(nh->iface_id, &nh->ipv6)`, `now` the value of
`rte_get_tsc_cycles()`, and `ucastProbes` the `NH_UCAST_PROBES` constant
(configuration outside the provided sources). -/
structure SolicitEnv where
  nhIn : Option Nexthop
  localPref : Option Nexthop
  now : Nat
  ucastProbes : Nat
  deriving Repr, DecidableEq

/-- The neighbor solicitation forged by `ndp_ns_output_process`: the NS
target, the advertised source link-layer address and the IPv6
source/destination written by `ip6_set_fields`. -/
structure NsPkt where
  target : Nat
  srcMac : Nat
  ipSrc : Nat
  ipDst : Nat
  deriving Repr, DecidableEq

/-- Per-packet result of `ndp_ns_output_process`: the `error` drop edge, or
the solicit emitted on `ip6_output` together with the nexthop's final state
(probe counter incremented, `last_request` updated), which is also the
nexthop attached to the packet metadata. -/
inductive SolicitResult where
  | error
  | output (ns : NsPkt) (nhAfter : Nexthop)
  deriving Repr, DecidableEq

/-- The body of the per-packet loop of `ndp_ns_output_process`
(ndp_ns_output.c:56-107). -/
def ndp_ns_output_process (env : SolicitEnv) : SolicitResult :=
  match env.nhIn with
  | none => .error
  | some nh =>
    match env.localPref with
    | none => .error
    | some localNh =>
      if nh.last_reply ≠ 0 ∧ nh.ucast_probes < env.ucastProbes then
        .output ⟨nh.ipv6, localNh.lladdr, localNh.ipv6, nh.ipv6⟩
          { nh with ucast_probes := nh.ucast_probes + 1, last_request := env.now }
      else
        .output ⟨nh.ipv6, localNh.lladdr, localNh.ipv6, ipv6_solnode nh.ipv6⟩
          { nh with bcast_probes := nh.bcast_probes + 1, last_request := env.now }

/-! ### `nh6_del` (src/modules/ip6/control/nexthop.c:232-252) -/

/-- Embedding of `struct gr_ip6_nh_del_req`. -/
structure DelReq where
  vrf_id : Nat
  host : Nat
  missing_ok : Bool
  deriving Repr, DecidableEq

/-- Collaborator inputs of `nh6_del`: the result and `errno` of
`ip6_nexthop_lookup(vrf, GR_IFACE_ID_UNDEF, host)`, the success and `errno`
of `ip6_route_delete`, and the `MAX_VRFS` bound (configuration outside the
provided sources). -/
structure DelEnv where
  lookup : Option Nexthop
  lookupErrno : Nat
  routeDeleteOk : Bool
  routeDeleteErrno : Nat
  maxVrfs : Nat
  deriving Repr, DecidableEq

/-- Result of `nh6_del`: the API status and whether the host route was
deleted (which also drops the nexthop's last reference). -/
structure DelOut where
  status : Nat
  routeDeleted : Bool
  deriving Repr, DecidableEq

/-- Embedding of `nh6_del` (nexthop.c:232-252). -/
def nh6_del (req : DelReq) (env : DelEnv) : DelOut :=
  if req.vrf_id ≥ env.maxVrfs then ⟨EOVERFLOW, false⟩
  else
    match env.lookup with
    | none =>
      if env.lookupErrno = ENOENT ∧ req.missing_ok then ⟨0, false⟩
      else ⟨env.lookupErrno, false⟩
    | some nh =>
      if nh.flags.local_ ∨ nh.flags.link ∨ nh.flags.gateway ∨ nh.ref_count > 1 then
        ⟨EBUSY, false⟩
      else if env.routeDeleteOk then ⟨0, true⟩
      else ⟨env.routeDeleteErrno, false⟩

/-! ### `nh6_add` (src/modules/ip6/control/nexthop.c:203-230), over an
explicit pool model -/

/-- The nexthop pool, in allocation order (lowest index first). -/
abbrev Pool := List Nexthop

/-- Modelled from the spec: `nexthop_lookup` over the pool's hash index
(the pool implementation is not part of the provided sources).  The index
is keyed by `(vrf_id, iface_id, addr)`; a lookup with
`iface_id = GR_IFACE_ID_UNDEF` matches on `(vrf, addr)` ignoring the
interface and returns the first match in deterministic order. -/
def pool_lookup (pool : Pool) (vrf iface addr : Nat) : Option Nexthop :=
  pool.find? (fun nh =>
    nh.vrf_id = vrf && nh.ipv6 = addr &&
      (iface = GR_IFACE_ID_UNDEF || nh.iface_id = iface))

/-- Modelled from the spec: `nexthop_new` over the pool (the pool allocator
is not part of the provided sources).  Allocation fails when the pool is at
capacity or the address is unspecified/multicast; otherwise a fresh entry is
appended. -/
def pool_new (pool : Pool) (capacity vrf iface addr : Nat) :
    Option (Nexthop × Pool) :=
  if ipv6_is_unspec addr ∨ ipv6_is_mcast addr then none
  else if pool.length ≥ capacity then none
  else
    let nh := mkNexthop vrf iface addr
    some (nh, pool ++ [nh])

/-- Embedding of `struct gr_ip6_nh_add_req`. -/
structure AddReq where
  vrf_id : Nat
  iface_id : Nat
  ipv6 : Nat
  mac : Nat
  exist_ok : Bool
  deriving Repr, DecidableEq

/-- Collaborator inputs of `nh6_add`: the `MAX_VRFS` bound and pool capacity
(configuration outside the provided sources), which interface ids
`iface_from_id` resolves, and the success and `errno` of
`ip6_route_insert`. -/
structure AddEnv where
  maxVrfs : Nat
  capacity : Nat
  ifaceExists : Nat → Bool
  routeInsertOk : Bool
  routeInsertErrno : Nat

/-- Embedding of `nh6_add` (nexthop.c:203-230): API status and resulting pool.  When the
pool allocation fails the status is the allocator's `errno`
(`ENOSPC`, per the spec's `NO_CAPACITY`/`INVALID_ARG` this models the
capacity case reached after the handler's own argument checks). -/
def nh6_add (req : AddReq) (env : AddEnv) (pool : Pool) : Nat × Pool :=
  if ipv6_is_unspec req.ipv6 ∨ ipv6_is_mcast req.ipv6 then (EINVAL, pool)
  else if req.vrf_id ≥ env.maxVrfs then (EOVERFLOW, pool)
  else if ¬ env.ifaceExists req.iface_id then (ENODEV, pool)
  else
    match pool_lookup pool req.vrf_id req.iface_id req.ipv6 with
    | some nh =>
      if req.exist_ok ∧ req.iface_id = nh.iface_id ∧ req.mac = nh.lladdr then
        (0, pool)
      else (EEXIST, pool)
    | none =>
      match pool_new pool env.capacity req.vrf_id req.iface_id req.ipv6 with
      | none => (ENOSPC, pool)
      | some (nh, _) =>
        let nh' : Nexthop :=
          { nh with
            lladdr := req.mac
            flags := { noFlags with static_ := true, reachable := true } }
        let pool' := pool ++ [nh']
        if env.routeInsertOk then (0, pool')
        else (env.routeInsertErrno, pool')

/-! ### Concrete instances used by witness theorems -/

/-- A pending, non-static nexthop holding two packets. -/
def probeNhW : Nexthop where
  vrf_id := 0
  iface_id := 1
  ipv6 := 42
  lladdr := 7
  flags := { noFlags with pending := true }
  ref_count := 2
  ucast_probes := 1
  bcast_probes := 2
  last_request := 3
  last_reply := 4
  held_pkts := [10, 11]
  held_pkts_num := 2

/-- A neighbor solicitation probe for `probeNhW` carrying mac `5`. -/
def probeMsgW : ProbeMsg := ⟨135, 42, some 5, none, 0, 1⟩

/-- Probe environment where the lookup finds `probeNhW`. -/
def probeEnvW : ProbeEnv := ⟨some probeNhW, true, true, 99⟩

/-- A static nexthop. -/
def staticNhW : Nexthop :=
  { probeNhW with flags := { noFlags with static_ := true, reachable := true } }

/-- Probe environment where the lookup finds `staticNhW`. -/
def staticEnvW : ProbeEnv := ⟨some staticNhW, true, true, 99⟩

/-- A probe message with an ICMPv6 type that is neither NS nor NA. -/
def badProbeMsgW : ProbeMsg := ⟨128, 42, some 5, some 6, 0, 1⟩

/-- The nexthop `probeNhW` with all flags clear (neither reachable nor
pending). -/
def unreachNhW : Nexthop := { probeNhW with flags := noFlags }

/-- Unreachable-callback message for destination 42 carrying packet 77. -/
def unreachMsgW : UnreachMsg := ⟨42, 0, 1, 77⟩

/-- Unreachable-callback environment resolving the route directly to
`unreachNhW` (not a LINK route), `NH_MAX_HELD_PKTS = 8`. -/
def unreachEnvW : UnreachEnv := ⟨some unreachNhW, none, true, true, true, 8⟩

/-- The nexthop `probeNhW` flagged as a LINK-route nexthop. -/
def linkNhW : Nexthop := { probeNhW with flags := { noFlags with link := true } }

/-- Unreachable-callback message for destination 45, which differs from
`linkNhW`'s address 42. -/
def linkMsgW : UnreachMsg := ⟨45, 0, 1, 78⟩

/-- Unreachable-callback environment resolving the route to `linkNhW` with
no existing host nexthop for the destination. -/
def linkEnvW : UnreachEnv := ⟨some linkNhW, none, true, true, true, 8⟩

/-- A LOCAL nexthop owning `fe80::1` on interface 1. -/
def localNhW : Nexthop where
  vrf_id := 0
  iface_id := 1
  ipv6 := 0xfe800000000000000000000000000001
  lladdr := 0xaaaaaaaaaa01
  flags := { noFlags with local_ := true }
  ref_count := 1
  ucast_probes := 0
  bcast_probes := 0
  last_request := 0
  last_reply := 0
  held_pkts := []
  held_pkts_num := 0

/-- A valid neighbor solicitation from the unspecified source to the
all-nodes multicast address (which is multicast but not a solicited-node
multicast address), targeting `localNhW`. -/
def nsMsgW : NsInputMsg :=
  ⟨255, 0, 24, 0, ipv6_allnodes, 0xfe800000000000000000000000000001, none, 0, 1⟩

/-- NS-input environment where the target lookup finds `localNhW`. -/
def nsEnvW : NsInputEnv := ⟨some localNhW, none, true⟩

/-- Solicit environment for `probeNhW` (`last_reply = 4 ≠ 0`,
`ucast_probes = 1 < 3`) with `localNhW` as the preferred source. -/
def solicitEnvW : SolicitEnv := ⟨some probeNhW, some localNhW, 123, 3⟩

/-- Deletion request for `probeNhW`'s address. -/
def delReqW : DelReq := ⟨0, 42, false⟩

/-- Deletion environment where the lookup finds `probeNhW` (unprotected,
`ref_count = 2 > 1`). -/
def delEnvW : DelEnv := ⟨some probeNhW, 0, true, 0, 16⟩

/-- The pool entry appended by a successful `nh6_add`. -/
def nh6AddEntry (req : AddReq) : Nexthop :=
  { mkNexthop req.vrf_id req.iface_id req.ipv6 with
    lladdr := req.mac
    flags := { noFlags with static_ := true, reachable := true } }

/-- First NH_ADD request: vrf 0, iface 1, address `::1`, mac 5. -/
def addReq9 : AddReq := ⟨0, 1, 1, 5, true⟩

/-- Second NH_ADD request: same vrf, address and mac, differing iface 2. -/
def addReq9b : AddReq := ⟨0, 2, 1, 5, true⟩

/-- NH_ADD environment: interfaces 1 and 2 exist, capacity 2. -/
def addEnv9 : AddEnv := ⟨1, 2, fun i => i = 1 || i = 2, true, 0⟩

/-- NH_ADD environment for the idempotence witness: interface 1 exists,
capacity 4. -/
def addEnvW : AddEnv := ⟨1, 4, fun i => i = 1, true, 0⟩

/-! ### Theorems -/

/-- C1: for every probe message posted to the control loop (NS or NA
carrying a link-layer address option) whose looked-up or newly created
nexthop is not STATIC, `ndp_probe_input_cb` sets the nexthop's lladdr to the
advertised MAC, sets REACHABLE, clears STALE, PENDING and FAILED, zeroes
`ucast_probes` and `bcast_probes`, sets `last_reply`, and hands every held
packet to the output node in enqueue (FIFO) order with that nexthop
attached, leaving `held_pkts_num = 0`. -/
theorem probe_reply_sets_reachable_and_flushes (msg : ProbeMsg) (env : ProbeEnv)
    (mac : Nat) (nh0 : Nexthop)
    (hll : probeLladdr msg = some mac)
    (hnh : probeTargetNh msg env = some nh0)
    (hstatic : nh0.flags.static_ = false)
    (hins : env.lookup = none → env.routeInsertOk = true) :
    ∃ nhR : Nexthop,
      (ndp_probe_input_cb msg env).nhAfter = some nhR ∧
      (ndp_probe_input_cb msg env).posted = nh0.held_pkts.map (fun p => (p, nhR)) ∧
      nhR.lladdr = mac ∧
      nhR.flags.reachable = true ∧
      nhR.flags.stale = false ∧
      nhR.flags.pending = false ∧
      nhR.flags.failed = false ∧
      nhR.ucast_probes = 0 ∧
      nhR.bcast_probes = 0 ∧
      nhR.last_reply = env.now ∧
      nhR.held_pkts = [] ∧
      nhR.held_pkts_num = 0 := by
  have hmain : ∀ (nh : Nexthop) (created : Bool) (route : Option RouteInsert),
      nh.flags.static_ = false →
      ∃ nhR : Nexthop,
        probeRefresh msg env mac nh created route =
          ⟨some nhR, created, route, nh.held_pkts.map (fun p => (p, nhR))⟩ ∧
        nhR.lladdr = mac ∧ nhR.flags.reachable = true ∧ nhR.flags.stale = false ∧
        nhR.flags.pending = false ∧ nhR.flags.failed = false ∧
        nhR.ucast_probes = 0 ∧ nhR.bcast_probes = 0 ∧ nhR.last_reply = env.now ∧
        nhR.held_pkts = [] ∧ nhR.held_pkts_num = 0 := by
    intro nh created route hst
    refine ⟨{ nh with
        last_reply := env.now
        iface_id := msg.ifaceId
        flags := { nh.flags with
          reachable := true, stale := false, pending := false, failed := false }
        ucast_probes := 0
        bcast_probes := 0
        lladdr := mac
        held_pkts := []
        held_pkts_num := 0 },
      ?_, rfl, rfl, rfl, rfl, rfl, rfl, rfl, rfl, rfl, rfl⟩
    simp [probeRefresh, hst]
  cases hl : env.lookup with
  | some nh =>
    have hnh' : nh = nh0 := by simpa [probeTargetNh, hl] using hnh
    subst hnh'
    obtain ⟨nhR, hEq, hp⟩ := hmain nh false none hstatic
    have e : ndp_probe_input_cb msg env = probeRefresh msg env mac nh false none := by
      simp [ndp_probe_input_cb, hll, hl]
    exact ⟨nhR, by rw [e, hEq], by rw [e, hEq], hp⟩
  | none =>
    have hio : env.routeInsertOk = true := hins hl
    simp only [probeTargetNh, hl] at hnh
    cases hok : env.newOk with
    | false => simp [hok] at hnh
    | true =>
      rw [hok] at hnh
      simp only [if_true, Option.some.injEq] at hnh
      subst hnh
      obtain ⟨nhR, hEq, hp⟩ :=
        hmain (mkNexthop msg.ifaceVrf msg.ifaceId msg.target) true
          (some ⟨msg.ifaceVrf, msg.ifaceId, msg.target, RTE_IPV6_MAX_DEPTH,
            mkNexthop msg.ifaceVrf msg.ifaceId msg.target⟩) hstatic
      have e : ndp_probe_input_cb msg env =
          probeRefresh msg env mac (mkNexthop msg.ifaceVrf msg.ifaceId msg.target) true
            (some ⟨msg.ifaceVrf, msg.ifaceId, msg.target, RTE_IPV6_MAX_DEPTH,
              mkNexthop msg.ifaceVrf msg.ifaceId msg.target⟩) := by
        simp [ndp_probe_input_cb, hll, hl, hok, hio]
      exact ⟨nhR, by rw [e, hEq], by rw [e, hEq], hp⟩

/-- Witness for C1 at a concrete probe and nexthop. -/
theorem probe_reply_sets_reachable_and_flushes_witness :
    ∃ nhR : Nexthop,
      (ndp_probe_input_cb probeMsgW probeEnvW).nhAfter = some nhR ∧
      (ndp_probe_input_cb probeMsgW probeEnvW).posted =
        probeNhW.held_pkts.map (fun p => (p, nhR)) ∧
      nhR.lladdr = 5 ∧
      nhR.flags.reachable = true ∧
      nhR.flags.stale = false ∧
      nhR.flags.pending = false ∧
      nhR.flags.failed = false ∧
      nhR.ucast_probes = 0 ∧
      nhR.bcast_probes = 0 ∧
      nhR.last_reply = probeEnvW.now ∧
      nhR.held_pkts = [] ∧
      nhR.held_pkts_num = 0 :=
  probe_reply_sets_reachable_and_flushes probeMsgW probeEnvW 5 probeNhW
    (by decide) (by decide) (by decide) (by decide)

/-- C3: for every nexthop with the STATIC flag set, processing any received
probe leaves the nexthop unchanged: no packet is flushed, no nexthop is
created, no route is inserted, and the nexthop's final state (when reached
at all) is its initial state. -/
theorem static_nexthop_unchanged_by_probe (msg : ProbeMsg) (env : ProbeEnv)
    (nh : Nexthop)
    (hl : env.lookup = some nh)
    (hs : nh.flags.static_ = true) :
    (ndp_probe_input_cb msg env).posted = [] ∧
    (ndp_probe_input_cb msg env).created = false ∧
    (ndp_probe_input_cb msg env).routeInserted = none ∧
    ((ndp_probe_input_cb msg env).nhAfter = none ∨
      (ndp_probe_input_cb msg env).nhAfter = some nh) := by
  cases hll : probeLladdr msg with
  | none => simp [ndp_probe_input_cb, hll]
  | some mac => simp [ndp_probe_input_cb, hll, hl, probeRefresh, hs]

/-- Witness for C3 at a concrete static nexthop. -/
theorem static_nexthop_unchanged_by_probe_witness :
    (ndp_probe_input_cb probeMsgW staticEnvW).posted = [] ∧
    (ndp_probe_input_cb probeMsgW staticEnvW).created = false ∧
    (ndp_probe_input_cb probeMsgW staticEnvW).routeInserted = none ∧
    ((ndp_probe_input_cb probeMsgW staticEnvW).nhAfter = none ∨
      (ndp_probe_input_cb probeMsgW staticEnvW).nhAfter = some staticNhW) :=
  static_nexthop_unchanged_by_probe probeMsgW staticEnvW staticNhW
    (by decide) (by decide)

/-- C10: a message whose ICMPv6 type is neither neighbor-solicit nor
neighbor-advert, or which carries no source-lladdr (NS) or target-lladdr
(NA) option, is freed without creating a nexthop, inserting a route,
mutating a nexthop, or posting any packet. -/
theorem probe_invalid_freed_no_mutation (msg : ProbeMsg) (env : ProbeEnv)
    (h : (msg.icmpType ≠ ICMP6_TYPE_NEIGH_SOLICIT ∧
            msg.icmpType ≠ ICMP6_TYPE_NEIGH_ADVERT) ∨
         (msg.icmpType = ICMP6_TYPE_NEIGH_SOLICIT ∧ msg.srcLladdrOpt = none) ∨
         (msg.icmpType = ICMP6_TYPE_NEIGH_ADVERT ∧ msg.tgtLladdrOpt = none)) :
    ndp_probe_input_cb msg env = ⟨none, false, none, []⟩ := by
  have hll : probeLladdr msg = none := by
    rcases h with ⟨h1, h2⟩ | ⟨h1, h2⟩ | ⟨h1, h2⟩
    · simp [probeLladdr, h1, h2]
    · simp [probeLladdr, h1, h2]
    · simp [probeLladdr, h1, h2, ICMP6_TYPE_NEIGH_SOLICIT, ICMP6_TYPE_NEIGH_ADVERT]
  simp [ndp_probe_input_cb, hll]

/-- Witness for C10 at a concrete non-NDP message. -/
theorem probe_invalid_freed_no_mutation_witness :
    ndp_probe_input_cb badProbeMsgW probeEnvW = ⟨none, false, none, []⟩ :=
  probe_invalid_freed_no_mutation badProbeMsgW probeEnvW (by decide)

/-- C2: in the unreachable callback, when the (possibly pivoted) nexthop is
not REACHABLE: if `held_pkts_num < NH_MAX_HELD_PKTS` the packet is appended
at the tail of the hold queue and `held_pkts_num` incremented (staying at
most `NH_MAX_HELD_PKTS`), PENDING ends up set, and a solicit is emitted
exactly when PENDING was not already set; if the queue is full the packet is
freed and nothing changes. -/
theorem unreachable_enqueue_bounded (msg : UnreachMsg) (env : UnreachEnv)
    (nh : Nexthop) (created inherited : Bool) (route : Option RouteInsert)
    (hp : unreachPivot msg env = .cont nh created inherited route)
    (hr : nh.flags.reachable = false) :
    (nh.held_pkts_num < env.maxHeld →
      ip6_nexthop_unreachable_cb msg env =
        .held
          { nh with
            held_pkts := nh.held_pkts ++ [msg.pkt]
            held_pkts_num := nh.held_pkts_num + 1
            flags := { nh.flags with pending := true } }
          (!nh.flags.pending) ∧
      nh.held_pkts_num + 1 ≤ env.maxHeld) ∧
    (¬ nh.held_pkts_num < env.maxHeld →
      ip6_nexthop_unreachable_cb msg env = .freed) := by
  have e : ip6_nexthop_unreachable_cb msg env = unreachDeliver nh msg.pkt env := by
    simp [ip6_nexthop_unreachable_cb, hp]
  constructor
  · intro hroom
    refine ⟨?_, hroom⟩
    rw [e]
    cases hpe : nh.flags.pending with
    | false =>
      simp only [unreachDeliver, hr, Bool.false_eq_true, if_false, hroom, if_true, hpe,
        not_false_eq_true, Bool.not_false]
    | true =>
      have hfl : { nh.flags with pending := true } = nh.flags := by
        cases hf : nh.flags with
        | mk s l li g re st pe fa =>
          rw [hf] at hpe
          have hpe' : pe = true := hpe
          subst hpe'
          rfl
      rw [hfl]
      simp [unreachDeliver, hr, hroom, hpe]
  · intro hfull
    rw [e]
    simp [unreachDeliver, hr, hfull]

/-- Witness for C2 at a concrete non-reachable, non-pending nexthop. -/
theorem unreachable_enqueue_bounded_witness :
    (unreachNhW.held_pkts_num < unreachEnvW.maxHeld →
      ip6_nexthop_unreachable_cb unreachMsgW unreachEnvW =
        .held
          { unreachNhW with
            held_pkts := unreachNhW.held_pkts ++ [unreachMsgW.pkt]
            held_pkts_num := unreachNhW.held_pkts_num + 1
            flags := { unreachNhW.flags with pending := true } }
          (!unreachNhW.flags.pending) ∧
      unreachNhW.held_pkts_num + 1 ≤ unreachEnvW.maxHeld) ∧
    (¬ unreachNhW.held_pkts_num < unreachEnvW.maxHeld →
      ip6_nexthop_unreachable_cb unreachMsgW unreachEnvW = .freed) :=
  unreachable_enqueue_bounded unreachMsgW unreachEnvW unreachNhW false false none
    (by decide) (by decide)

/-- C4: in the unreachable callback, when the resolved route is a LINK
nexthop whose address differs from the destination, the callback pivots to
the host nexthop for the destination: created with the link route's
`iface_id` when absent, inheriting the link route's `iface_id` for an
uninitialized GATEWAY entry, and a /128 host route for the destination is
inserted pointing at that nexthop; a nexthop whose `iface_id` differs from
the link route's is a fatal abort. -/
theorem link_route_pivot_to_host_nexthop (msg : UnreachMsg) (env : UnreachEnv)
    (nh : Nexthop)
    (hroute : env.routeLookup = some nh)
    (hlink : nh.flags.link = true)
    (hne : msg.dst ≠ nh.ipv6) :
    (env.nhLookup = none → env.newOk = true → env.routeInsertOk = true →
      unreachPivot msg env =
        .cont (mkNexthop nh.vrf_id nh.iface_id msg.dst) true false
          (some ⟨nh.vrf_id, nh.iface_id, msg.dst, RTE_IPV6_MAX_DEPTH,
            mkNexthop nh.vrf_id nh.iface_id msg.dst⟩)) ∧
    (∀ r : Nexthop, env.nhLookup = some r →
      r.flags.gateway = true → r.iface_id = GR_IFACE_ID_UNDEF →
      env.routeInsertOk = true →
      unreachPivot msg env =
        .cont { r with iface_id := nh.iface_id } false true
          (some ⟨nh.vrf_id, nh.iface_id, msg.dst, RTE_IPV6_MAX_DEPTH,
            { r with iface_id := nh.iface_id }⟩)) ∧
    (∀ r : Nexthop, env.nhLookup = some r →
      ¬ (r.flags.gateway = true ∧ r.iface_id = GR_IFACE_ID_UNDEF) →
      r.iface_id ≠ nh.iface_id →
      unreachPivot msg env = .abort) := by
  refine ⟨?_, ?_, ?_⟩
  · intro hmiss hnew hins
    simp [unreachPivot, hroute, hlink, hne, hmiss, hnew, hins, mkNexthop]
  · intro r hfound hgw hundef hins
    simp [unreachPivot, hroute, hlink, hne, hfound, hgw, hundef, hins]
  · intro r hfound hnotgw hiface
    simp only [unreachPivot, hroute, hlink, hne, hfound]
    have hcond : ¬ (r.flags.gateway = true ∧ r.iface_id = GR_IFACE_ID_UNDEF) := hnotgw
    simp [hcond, hiface, hne, hlink]

/-- Witness for C4: a LINK route for a different destination with no
existing host nexthop. -/
theorem link_route_pivot_to_host_nexthop_witness :
    unreachPivot linkMsgW linkEnvW =
      .cont (mkNexthop linkNhW.vrf_id linkNhW.iface_id linkMsgW.dst) true false
        (some ⟨linkNhW.vrf_id, linkNhW.iface_id, linkMsgW.dst,
          RTE_IPV6_MAX_DEPTH,
          mkNexthop linkNhW.vrf_id linkNhW.iface_id linkMsgW.dst⟩) :=
  (link_route_pivot_to_host_nexthop linkMsgW linkEnvW linkNhW
      (by decide) (by decide) (by decide)).1 (by decide) (by decide) (by decide)

/-- C5 counterexample: a neighbor solicitation passing every check of the
code (hop limit 255, code 0, non-multicast target, unspecified source, a
multicast — but not solicited-node multicast — destination, no source-lladdr
option, target resolving to a LOCAL nexthop) is not routed to the inval
edge, although the claim's condition "source unspecified and destination
not a solicited-node multicast address" holds. -/
theorem ns_input_inval_claim_counterexample :
    nsMsgW.hopLimit = 255 ∧ nsMsgW.icmpCode = 0 ∧
    ipv6_is_mcast nsMsgW.target = false ∧
    ipv6_is_unspec nsMsgW.src = true ∧
    ipv6_is_solnode_mcast nsMsgW.dst = false ∧
    nsEnvW.localLookup = some localNhW ∧ localNhW.flags.local_ = true ∧
    ndp_ns_input_process nsMsgW nsEnvW ≠ NsResult.inval := by decide

/-- C5 (amended): `ndp_ns_input_process` routes an incoming neighbor
solicitation to the inval edge exactly when the hop limit is not 255, or
the ICMP code is not 0, or the target address is multicast, or the target
resolves to a LOCAL nexthop while the source IP is unspecified and either
the IP destination is not multicast or a source link-layer address option
is present. -/
theorem ns_input_inval_iff (msg : NsInputMsg) (env : NsInputEnv) :
    ndp_ns_input_process msg env = NsResult.inval ↔
      (msg.hopLimit ≠ 255 ∨ msg.icmpCode ≠ 0 ∨ ipv6_is_mcast msg.target = true ∨
        ((∃ nh, env.localLookup = some nh ∧ nh.flags.local_ = true) ∧
          ipv6_is_unspec msg.src = true ∧
          (ipv6_is_mcast msg.dst = false ∨ msg.srcLladdrOpt ≠ none))) := by
  by_cases h1 : msg.hopLimit = 255
  case neg => simp [ndp_ns_input_process, h1]
  case pos =>
    by_cases h2 : msg.icmpCode = 0
    case neg => simp [ndp_ns_input_process, h1, h2]
    case pos =>
      by_cases h4 : ipv6_is_mcast msg.target = true
      case pos => simp [ndp_ns_input_process, h1, h2, h4]
      case neg =>
        cases hl : env.localLookup with
        | none => simp [ndp_ns_input_process, h1, h2, h4, hl]
        | some nh =>
          by_cases hloc : nh.flags.local_ = true
          case neg => simp [ndp_ns_input_process, h1, h2, h4, hl, hloc]
          case pos =>
            by_cases hsrc : ipv6_is_unspec msg.src = true
            case pos =>
              by_cases hdst : ipv6_is_mcast msg.dst = true
              case neg =>
                simp [ndp_ns_input_process, h1, h2, h4, hl, hloc, hsrc, hdst]
              case pos =>
                cases hso : msg.srcLladdrOpt with
                | none =>
                  simp [ndp_ns_input_process, h1, h2, h4, hl, hloc, hsrc, hdst, hso]
                | some m =>
                  simp [ndp_ns_input_process, h1, h2, h4, hl, hloc, hsrc, hdst, hso]
            case neg =>
              cases hso : msg.srcLladdrOpt with
              | none =>
                simp [ndp_ns_input_process, h1, h2, h4, hl, hloc, hsrc, hso]
              | some m =>
                cases hcp : env.copyOk with
                | true =>
                  simp [ndp_ns_input_process, h1, h2, h4, hl, hloc, hsrc, hso, hcp]
                | false =>
                  simp [ndp_ns_input_process, h1, h2, h4, hl, hloc, hsrc, hso, hcp]

/-- C6: a valid neighbor solicitation whose source IP is unspecified and
whose target resolves to a LOCAL nexthop is answered with a neighbor
advertisement with Solicited = 0 sent to the all-nodes link-local multicast
address, and no copy is posted to the control loop. -/
theorem ns_unspec_source_reply_allnodes (msg : NsInputMsg) (env : NsInputEnv)
    (localNh : Nexthop)
    (h255 : msg.hopLimit = 255)
    (hcode : msg.icmpCode = 0)
    (htm : ipv6_is_mcast msg.target = false)
    (hsrc : ipv6_is_unspec msg.src = true)
    (hdst : ipv6_is_mcast msg.dst = true)
    (hll : msg.srcLladdrOpt = none)
    (hlocal : env.localLookup = some localNh)
    (hlf : localNh.flags.local_ = true) :
    ndp_ns_input_process msg env =
      NsResult.output
        ⟨false, true, true, localNh.ipv6, localNh.lladdr, localNh.ipv6,
          ipv6_allnodes, localNh⟩
        none := by
  unfold ndp_ns_input_process
  rw [hlocal]
  simp [h255, hcode, htm, hsrc, hdst, hll, hlf]

/-- Witness for C6 at the concrete unspecified-source solicitation. -/
theorem ns_unspec_source_reply_allnodes_witness :
    ndp_ns_input_process nsMsgW nsEnvW =
      NsResult.output
        ⟨false, true, true, localNhW.ipv6, localNhW.lladdr, localNhW.ipv6,
          ipv6_allnodes, localNhW⟩
        none :=
  ns_unspec_source_reply_allnodes nsMsgW nsEnvW localNhW
    (by decide) (by decide) (by decide) (by decide) (by decide) (by decide)
    (by decide) (by decide)

/-- C7: when `ndp_ns_output_process` builds a solicit for a nexthop, the
IPv6 destination is the nexthop's own address and `ucast_probes` is
incremented when `last_reply ≠ 0` and `ucast_probes < NH_UCAST_PROBES`;
otherwise the destination is the solicited-node multicast address derived
from the nexthop address and `bcast_probes` is incremented; in both cases
`last_request` is updated on the emitted nexthop. -/
theorem ns_output_probe_destination (env : SolicitEnv) (nh localNh : Nexthop)
    (hnh : env.nhIn = some nh)
    (hl : env.localPref = some localNh) :
    (nh.last_reply ≠ 0 ∧ nh.ucast_probes < env.ucastProbes →
      ndp_ns_output_process env =
        .output ⟨nh.ipv6, localNh.lladdr, localNh.ipv6, nh.ipv6⟩
          { nh with ucast_probes := nh.ucast_probes + 1, last_request := env.now }) ∧
    (¬ (nh.last_reply ≠ 0 ∧ nh.ucast_probes < env.ucastProbes) →
      ndp_ns_output_process env =
        .output ⟨nh.ipv6, localNh.lladdr, localNh.ipv6, ipv6_solnode nh.ipv6⟩
          { nh with bcast_probes := nh.bcast_probes + 1, last_request := env.now }) := by
  constructor
  · intro hc
    simp only [ndp_ns_output_process, hnh, hl]
    rw [if_pos hc]
  · intro hc
    simp only [ndp_ns_output_process, hnh, hl]
    rw [if_neg hc]

/-- Witness for C7 at a concrete nexthop on the unicast-probe branch. -/
theorem ns_output_probe_destination_witness :
    (probeNhW.last_reply ≠ 0 ∧ probeNhW.ucast_probes < solicitEnvW.ucastProbes →
      ndp_ns_output_process solicitEnvW =
        .output ⟨probeNhW.ipv6, localNhW.lladdr, localNhW.ipv6, probeNhW.ipv6⟩
          { probeNhW with
            ucast_probes := probeNhW.ucast_probes + 1
            last_request := solicitEnvW.now }) ∧
    (¬ (probeNhW.last_reply ≠ 0 ∧ probeNhW.ucast_probes < solicitEnvW.ucastProbes) →
      ndp_ns_output_process solicitEnvW =
        .output
          ⟨probeNhW.ipv6, localNhW.lladdr, localNhW.ipv6,
            ipv6_solnode probeNhW.ipv6⟩
          { probeNhW with
            bcast_probes := probeNhW.bcast_probes + 1
            last_request := solicitEnvW.now }) :=
  ns_output_probe_destination solicitEnvW probeNhW localNhW (by decide) (by decide)

/-- C8: with a valid vrf and an existing nexthop, NH_DEL returns EBUSY
without deleting anything exactly when the nexthop has any of LOCAL, LINK,
GATEWAY or `ref_count > 1`; otherwise (route deletion succeeding) the host
route is deleted and the request succeeds. -/
theorem nh_del_busy_iff (req : DelReq) (env : DelEnv) (nh : Nexthop)
    (hv : req.vrf_id < env.maxVrfs)
    (hl : env.lookup = some nh)
    (hd : env.routeDeleteOk = true) :
    (nh6_del req env = ⟨EBUSY, false⟩ ↔
      (nh.flags.local_ = true ∨ nh.flags.link = true ∨ nh.flags.gateway = true ∨
        nh.ref_count > 1)) ∧
    (¬ (nh.flags.local_ = true ∨ nh.flags.link = true ∨ nh.flags.gateway = true ∨
        nh.ref_count > 1) →
      nh6_del req env = ⟨0, true⟩) := by
  have hnv : ¬ req.vrf_id ≥ env.maxVrfs := by omega
  have e : nh6_del req env =
      (if nh.flags.local_ ∨ nh.flags.link ∨ nh.flags.gateway ∨ nh.ref_count > 1 then
        ⟨EBUSY, false⟩
      else if env.routeDeleteOk then ⟨0, true⟩
      else ⟨env.routeDeleteErrno, false⟩ : DelOut) := by
    simp only [nh6_del, hl, if_neg hnv]
  rw [e]
  by_cases hc : (nh.flags.local_ = true ∨ nh.flags.link = true ∨
      nh.flags.gateway = true ∨ nh.ref_count > 1)
  · rw [if_pos hc]
    simp [hc]
  · rw [if_neg hc, if_pos hd]
    simp [hc, EBUSY]

/-- Witness for C8 at a concrete nexthop with `ref_count = 2`. -/
theorem nh_del_busy_iff_witness :
    (nh6_del delReqW delEnvW = ⟨EBUSY, false⟩ ↔
      (probeNhW.flags.local_ = true ∨ probeNhW.flags.link = true ∨
        probeNhW.flags.gateway = true ∨ probeNhW.ref_count > 1)) ∧
    (¬ (probeNhW.flags.local_ = true ∨ probeNhW.flags.link = true ∨
        probeNhW.flags.gateway = true ∨ probeNhW.ref_count > 1) →
      nh6_del delReqW delEnvW = ⟨0, true⟩) :=
  nh_del_busy_iff delReqW delEnvW probeNhW (by decide) (by decide) (by decide)

/-- A `List.find?` over an appended list skips a first part in which nothing matches. -/
theorem find?_append_of_none {α : Type} (p : α → Bool) (l₁ l₂ : List α)
    (h : l₁.find? p = none) : (l₁ ++ l₂).find? p = l₂.find? p := by
  induction l₁ with
  | nil => rfl
  | cons a t ih =>
    by_cases hpa : p a = true
    · rw [List.find?_cons_of_pos _ hpa] at h
      exact absurd h (by simp)
    · rw [List.find?_cons_of_neg _ (by simpa using hpa)] at h
      rw [List.cons_append, List.find?_cons_of_neg _ (by simpa using hpa)]
      exact ih h

/-- A pool lookup over `pool ++ [e]` when `pool` has no match reduces to
testing `e` against the key. -/
theorem pool_lookup_append (pool : Pool) (e : Nexthop) (vrf iface addr : Nat)
    (h : pool_lookup pool vrf iface addr = none) :
    pool_lookup (pool ++ [e]) vrf iface addr =
      (if (e.vrf_id = vrf && e.ipv6 = addr &&
            (iface = GR_IFACE_ID_UNDEF || e.iface_id = iface)) = true
       then some e else none) := by
  unfold pool_lookup at h ⊢
  rw [find?_append_of_none _ _ _ h]
  cases hp : (e.vrf_id = vrf && e.ipv6 = addr &&
      (iface = GR_IFACE_ID_UNDEF || e.iface_id = iface)) with
  | true => simp [List.find?, hp]
  | false => simp [List.find?, hp]

/-- C9 counterexample: after a successful NH_ADD (vrf 0, iface 1, addr
`::1`, mac 5), a second NH_ADD with the same vrf, address and mac but a
differing iface does not return EEXIST: the keyed pool lookup misses, a
second nexthop is allocated and the add succeeds, growing the pool. -/
theorem nh_add_differing_iface_counterexample :
    (nh6_add addReq9 addEnv9 []).1 = 0 ∧
    (nh6_add addReq9b addEnv9 (nh6_add addReq9 addEnv9 []).2).1 ≠ EEXIST ∧
    (nh6_add addReq9b addEnv9 (nh6_add addReq9 addEnv9 []).2).2 ≠
      (nh6_add addReq9 addEnv9 []).2 := by decide

/-- C9 (amended): a successful NH_ADD appends exactly one entry; a second
NH_ADD with the same vrf, iface, address and mac returns OK when
`exist_ok = true` and EEXIST when `exist_ok = false`, leaving the pool
unchanged either way; a second NH_ADD with the same key but a differing mac
returns EEXIST leaving the pool unchanged; a second NH_ADD with a differing
(non-UNDEF, existing) iface misses the keyed lookup and appends a second
entry, returning OK. -/
theorem nh_add_idempotence (req : AddReq) (env : AddEnv) (pool : Pool)
    (hip1 : ipv6_is_unspec req.ipv6 = false)
    (hip2 : ipv6_is_mcast req.ipv6 = false)
    (hv : req.vrf_id < env.maxVrfs)
    (hif : env.ifaceExists req.iface_id = true)
    (hmiss : pool_lookup pool req.vrf_id req.iface_id req.ipv6 = none)
    (hcap : pool.length < env.capacity)
    (hins : env.routeInsertOk = true) :
    nh6_add req env pool = (0, pool ++ [nh6AddEntry req]) ∧
    (∀ e : Bool,
      nh6_add { req with exist_ok := e } env (pool ++ [nh6AddEntry req]) =
        ((if e then 0 else EEXIST), pool ++ [nh6AddEntry req])) ∧
    (∀ mac' : Nat, ∀ e : Bool, mac' ≠ req.mac →
      nh6_add { req with mac := mac', exist_ok := e } env
          (pool ++ [nh6AddEntry req]) =
        (EEXIST, pool ++ [nh6AddEntry req])) ∧
    (∀ iface' : Nat, iface' ≠ req.iface_id → iface' ≠ GR_IFACE_ID_UNDEF →
      env.ifaceExists iface' = true →
      pool_lookup pool req.vrf_id iface' req.ipv6 = none →
      pool.length + 1 < env.capacity →
      nh6_add { req with iface_id := iface' } env (pool ++ [nh6AddEntry req]) =
        (0, (pool ++ [nh6AddEntry req]) ++
          [nh6AddEntry { req with iface_id := iface' }])) := by
  have hnv : ¬ req.vrf_id ≥ env.maxVrfs := by omega
  have hncap : ¬ pool.length ≥ env.capacity := by omega
  have hkey : ((nh6AddEntry req).vrf_id = req.vrf_id &&
      (nh6AddEntry req).ipv6 = req.ipv6 &&
      (req.iface_id = GR_IFACE_ID_UNDEF ||
        (nh6AddEntry req).iface_id = req.iface_id)) = true := by
    simp [nh6AddEntry, mkNexthop]
  refine ⟨?_, ?_, ?_, ?_⟩
  · simp only [nh6_add, hip1, hip2, Bool.false_eq_true, false_or, if_false,
      if_neg hnv, hif, if_true, hmiss, pool_new, hip1, hip2,
      if_neg hncap, hins, nh6AddEntry]
    simp [mkNexthop]
  · intro e
    have hlk := pool_lookup_append pool (nh6AddEntry req) req.vrf_id
      req.iface_id req.ipv6 hmiss
    rw [if_pos hkey] at hlk
    simp only [nh6_add, hip1, hip2, Bool.false_eq_true, false_or, if_false,
      if_neg hnv, hif, if_true, hlk]
    have hiface : req.iface_id = (nh6AddEntry req).iface_id := by
      simp [nh6AddEntry, mkNexthop]
    have hmac : req.mac = (nh6AddEntry req).lladdr := by
      simp [nh6AddEntry, mkNexthop]
    cases e with
    | true => simp [← hiface, ← hmac]
    | false => simp
  · intro mac' e hmac'
    have hlk := pool_lookup_append pool (nh6AddEntry req) req.vrf_id
      req.iface_id req.ipv6 hmiss
    rw [if_pos hkey] at hlk
    simp only [nh6_add, hip1, hip2, Bool.false_eq_true, false_or, if_false,
      if_neg hnv, hif, if_true, hlk]
    have hmac : (nh6AddEntry req).lladdr = req.mac := by
      simp [nh6AddEntry, mkNexthop]
    simp [hmac, hmac']
  · intro iface' hne hund hif' hmiss' hcap'
    have hkey' : ((nh6AddEntry req).vrf_id = req.vrf_id &&
        (nh6AddEntry req).ipv6 = req.ipv6 &&
        (iface' = GR_IFACE_ID_UNDEF ||
          (nh6AddEntry req).iface_id = iface')) = false := by
      simp [nh6AddEntry, mkNexthop, hund]
      omega
    have hlk := pool_lookup_append pool (nh6AddEntry req) req.vrf_id
      iface' req.ipv6 hmiss'
    rw [if_neg (by simp [hkey'])] at hlk
    have hncap' : ¬ (pool ++ [nh6AddEntry req]).length ≥ env.capacity := by
      simp only [List.length_append, List.length_singleton]
      omega
    simp only [nh6_add, hip1, hip2, Bool.false_eq_true, false_or, if_false,
      if_neg hnv, hif', if_true, hlk, pool_new, if_neg hncap', hins]
    simp [nh6AddEntry, mkNexthop]

/-- Witness for C9 (amended) starting from the empty pool. -/
theorem nh_add_idempotence_witness :
    nh6_add addReq9 addEnvW [] = (0, [] ++ [nh6AddEntry addReq9]) ∧
    (∀ e : Bool,
      nh6_add { addReq9 with exist_ok := e } addEnvW ([] ++ [nh6AddEntry addReq9]) =
        ((if e then 0 else EEXIST), [] ++ [nh6AddEntry addReq9])) ∧
    (∀ mac' : Nat, ∀ e : Bool, mac' ≠ addReq9.mac →
      nh6_add { addReq9 with mac := mac', exist_ok := e } addEnvW
          ([] ++ [nh6AddEntry addReq9]) =
        (EEXIST, [] ++ [nh6AddEntry addReq9])) ∧
    (∀ iface' : Nat, iface' ≠ addReq9.iface_id → iface' ≠ GR_IFACE_ID_UNDEF →
      addEnvW.ifaceExists iface' = true →
      pool_lookup [] addReq9.vrf_id iface' addReq9.ipv6 = none →
      ([] : Pool).length + 1 < addEnvW.capacity →
      nh6_add { addReq9 with iface_id := iface' } addEnvW
          ([] ++ [nh6AddEntry addReq9]) =
        (0, ([] ++ [nh6AddEntry addReq9]) ++
          [nh6AddEntry { addReq9 with iface_id := iface' }])) :=
  nh_add_idempotence addReq9 addEnvW [] (by decide) (by decide) (by decide)
    (by decide) (by decide) (by decide) (by decide)

end Grout
